import Mathlib

/-!
Shallow embedding of the `youtube_downloader` package (files
`youtube_downloader/models/__init__.py` and `youtube_downloader/service.py`).

Python dictionaries with string keys are embedded as insertion-ordered
association lists (`Dict`), Python values as the inductive `PyVal`, and the
wrapped yt-dlp library as an explicit function parameter returning
`Except String Dict` (an exception with message `m` is `.error m`; per the
source annotations `info: Dict[str, Any]`, a successful `extract_info` call
yields a string-keyed metadata map).  Side effects that do not influence the
claims (process logging, `os.makedirs`) are not modelled; opaque objects
stored in the option map (the `_YtDlpLogger` instance and the progress-hook
closure) are embedded as the opaque constructors `PyVal.logger` and
`PyVal.hook`.
-/

namespace YTDL

/-- Embedded Python values as they occur in this code base. -/
inductive PyVal where
  | pynone : PyVal
  | str : String → PyVal
  | int : Int → PyVal
  | bool : Bool → PyVal
  | pylist : List PyVal → PyVal
  | pydict : List (String × PyVal) → PyVal
  | logger : PyVal
  | hook : PyVal

/-- A Python `dict` with string keys: an insertion-ordered association list
with (invariant) pairwise-distinct keys. -/
abbrev Dict := List (String × PyVal)

/-- Python `d.get(k)` / `d[k]` lookup: value at the key, `none` if absent. -/
def dget : Dict → String → Option PyVal
  | [], _ => none
  | (a, b) :: rest, k => if a = k then some b else dget rest k

/-- Python `d[k] = v`: replace the value in place if the key is present
(keeping its position), else append the new pair at the end. -/
def dset : Dict → String → PyVal → Dict
  | [], k, v => [(k, v)]
  | (a, b) :: rest, k, v => if a = k then (k, v) :: rest else (a, b) :: dset rest k v

/-- Python `d.setdefault(k, v)`: insert `v` at `k` only when `k` is absent. -/
def dsetdefault (d : Dict) (k : String) (v : PyVal) : Dict :=
  match dget d k with
  | some _ => d
  | none => dset d k v

/-- Python `d[k].append(v)` on a list-valued entry (as in
`ydl_opts.setdefault("postprocessors", []).append(...)`); the non-list case
cannot arise at the single call site, where the key was just defaulted to a
list. -/
def dlistAppend (d : Dict) (k : String) (v : PyVal) : Dict :=
  match dget d k with
  | some (.pylist xs) => dset d k (.pylist (xs ++ [v]))
  | _ => d

/-- Python `d.update(e)`: set every key/value pair of `e` into `d`, in order. -/
def dupdate (d : Dict) (e : Dict) : Dict :=
  e.foldl (fun acc kv => dset acc kv.1 kv.2) d

/-- Python truthiness of an embedded value (`bool(v)`). -/
def pyTruthy : PyVal → Bool
  | .pynone => false
  | .str s => if s = "" then false else true
  | .int n => if n = 0 then false else true
  | .bool b => b
  | .pylist xs => !xs.isEmpty
  | .pydict xs => !xs.isEmpty
  | .logger => true
  | .hook => true

/-- Python `a or b` on optional values obtained via `.get` (missing keys and
`None` both read back as `none`): keep `a`'s value when truthy, else `b`. -/
def pyOr (a b : Option PyVal) : Option PyVal :=
  match a with
  | some v => if pyTruthy v then some v else b
  | none => b

/-- Python `a or b` on optional strings (`None` and `""` are falsy). -/
def pyOrStr (a b : Option String) : Option String :=
  match a with
  | some s => if s = "" then b else some s
  | none => b

/-- `os.path.join` for the shapes occurring here (relative second component). -/
def path_join (a b : String) : String :=
  if a = "" then b else if a.endsWith "/" then a ++ b else a ++ "/" ++ b

/-- `exc.isOk`-style discriminator: did the wrapped library call complete
without raising? -/
def exceptOk {ε α : Type} : Except ε α → Bool
  | .ok _ => true
  | .error _ => false

/-- `DownloadConfig` from `youtube_downloader/models/__init__.py`. -/
structure DownloadConfig where
  url : String
  output_dir : String := "downloads"
  filename_template : String := "%(title)s.%(ext)s"
  format : String := "best"
  audio_only : Bool := false
  playlist_items : Option String := none
  timeout : Option Int := none
  retries : Int := 3
  proxy : Option String := none
  extra_yt_dlp_options : Dict := []

/-- Status tag of a `ProgressEvent` (`Literal["downloading", "finished", "error"]`). -/
inductive EventStatus where
  | downloading
  | finished
  | error
deriving DecidableEq

/-- `ProgressEvent` from `youtube_downloader/models/__init__.py`; the numeric
and string fields hold whatever untyped values flowed out of the raw progress
dictionary, so they are embedded as optional `PyVal`s. -/
structure ProgressEvent where
  status : EventStatus
  downloaded_bytes : Option PyVal := none
  total_bytes : Option PyVal := none
  speed : Option PyVal := none
  eta : Option PyVal := none
  filename : Option PyVal := none
  raw : Dict := []

/-- `DownloadResult` from `youtube_downloader/models/__init__.py`; the
`filepaths` entries are the untyped values appended by `download`. -/
structure DownloadResult where
  success : Bool
  filepaths : List PyVal
  info : Dict := []
  errors : List String := []

/-- Service-level defaults fixed in `YouTubeDownloadService.__init__`. -/
structure Service where
  default_output_dir : String := "downloads"
  default_proxy : Option String := none

/-- The audio-extraction post-processor entry appended by the
`if config.audio_only:` branch of `_build_yt_dlp_options`. -/
def audio_postprocessor : PyVal :=
  .pydict [("key", .str "FFmpegExtractAudio"),
           ("preferredcodec", .str "mp3"),
           ("preferredquality", .str "192")]

/-- The proxy block shared by `get_info` and `_build_yt_dlp_options`:
`effective = p or default; if effective: d["proxy"] = effective`. -/
def applyProxyOpt (dflt p : Option String) (d : Dict) : Dict :=
  match pyOrStr p dflt with
  | some q => if q = "" then d else dset d "proxy" (.str q)
  | none => d

/-- The `# Apply proxy` block of `_build_yt_dlp_options`. -/
def applyProxy (svc : Service) (cfg : DownloadConfig) (d : Dict) : Dict :=
  applyProxyOpt svc.default_proxy cfg.proxy d

/-- The `# Timeout` block of `_build_yt_dlp_options`. -/
def applyTimeout (cfg : DownloadConfig) (d : Dict) : Dict :=
  match cfg.timeout with
  | some t => dset d "socket_timeout" (.int t)
  | none => d

/-- The `# Playlist selection` block of `_build_yt_dlp_options`. -/
def applyPlaylist (cfg : DownloadConfig) (d : Dict) : Dict :=
  match cfg.playlist_items with
  | some s => dset d "playlist_items" (.str s)
  | none => d

/-- The `# Audio only mode via postprocessors` block of
`_build_yt_dlp_options`: `setdefault("format", "bestaudio/best")`, then
`setdefault("postprocessors", []).append(...)`. -/
def applyAudioOnly (cfg : DownloadConfig) (d : Dict) : Dict :=
  if cfg.audio_only then
    dlistAppend
      (dsetdefault (dsetdefault d "format" (.str "bestaudio/best"))
        "postprocessors" (.pylist []))
      "postprocessors" audio_postprocessor
  else d

/-- The initial `ydl_opts` literal of `_build_yt_dlp_options` (`hp` records
whether a progress callback was supplied, the truthiness test
`if on_progress`). -/
def base_opts (cfg : DownloadConfig) (output_dir : String) (hp : Bool) : Dict :=
  [("outtmpl", .str (path_join output_dir cfg.filename_template)),
   ("format", .str cfg.format),
   ("noplaylist", .bool cfg.playlist_items.isNone),
   ("logger", .logger),
   ("progress_hooks", .pylist (if hp then [.hook] else [])),
   ("retries", .int cfg.retries)]

/-- `YouTubeDownloadService._build_yt_dlp_options`
(`youtube_downloader/service.py`, lines 215-260). -/
def build_yt_dlp_options (svc : Service) (cfg : DownloadConfig)
    (output_dir : String) (hp : Bool) : Dict :=
  dupdate
    (applyAudioOnly cfg
      (applyPlaylist cfg
        (applyTimeout cfg
          (applyProxy svc cfg (base_opts cfg output_dir hp)))))
    cfg.extra_yt_dlp_options

/-- The filepath collection inside `download`'s `try` block: a singular
`"_filename"` entry wins; otherwise entries of `"requested_downloads"` are
scanned in order and each truthy `"_filename"` value is appended. -/
def extract_filepaths (info : Dict) : List PyVal :=
  match dget info "_filename" with
  | some v => [v]
  | none =>
    match dget info "requested_downloads" with
    | some (.pylist items) =>
      items.filterMap fun item =>
        match item with
        | .pydict d =>
          match dget d "_filename" with
          | some p => if pyTruthy p then some p else none
          | none => none
        | _ => none
    | _ => []

/-- The option map `download` hands to `yt_dlp.YoutubeDL`:
`output_dir = config.output_dir or self._default_output_dir`, then
`_build_yt_dlp_options(config, output_dir, ...)`. -/
def download_opts (svc : Service) (cfg : DownloadConfig) (hp : Bool) : Dict :=
  build_yt_dlp_options svc cfg
    (if cfg.output_dir = "" then svc.default_output_dir else cfg.output_dir) hp

/-- `YouTubeDownloadService.download` (`youtube_downloader/service.py`,
lines 98-137).  `extract_info` stands for the wrapped library's
`ydl.extract_info(config.url, download=True)`, receiving the option map and
the URL; `.error m` embeds a raised exception whose `str(exc)` is `m`.  The
surrounding `try`/`except Exception` makes the function total: it never
raises, and on an exception returns the initial `filepaths = []`,
`info = {}` with the single error string. -/
def download (svc : Service) (cfg : DownloadConfig) (hp : Bool)
    (extract_info : Dict → String → Except String Dict) : DownloadResult :=
  match extract_info (download_opts svc cfg hp) cfg.url with
  | .ok info =>
    { success := true, filepaths := extract_filepaths info, info := info, errors := [] }
  | .error exc =>
    { success := false, filepaths := [], info := [], errors := [exc] }

/-- The `ydl_opts` of `get_info`, including its proxy block. -/
def get_info_opts (svc : Service) (proxy : Option String) : Dict :=
  applyProxyOpt svc.default_proxy proxy
    [("skip_download", .bool true), ("quiet", .bool true), ("no_warnings", .bool true)]

/-- `YouTubeDownloadService.get_info` (`youtube_downloader/service.py`,
lines 80-96): a metadata-only fetch with no `try`/`except`, so the wrapped
library's outcome — metadata map or exception — is returned as is. -/
def get_info (svc : Service) (url : String) (proxy : Option String)
    (extract_info : Dict → String → Except String Dict) : Except String Dict :=
  extract_info (get_info_opts svc proxy) url

/-- The status translation at the head of the hook in `_make_progress_hook`:
`== "downloading"`, elif `== "finished"`, else `error` (a comparison of a
non-string raw status with a string literal is `False` in Python). -/
def map_raw_status (v : Option PyVal) : EventStatus :=
  match v with
  | some (.str s) =>
    if s = "downloading" then .downloading
    else if s = "finished" then .finished
    else .error
  | _ => .error

/-- `status.get("info_dict", {})` as used by the hook; the value is a
nested metadata dictionary in every yt-dlp progress payload. -/
def info_dict_of (status : Dict) : Dict :=
  match dget status "info_dict" with
  | some (.pydict d) => d
  | _ => []

/-- The `ProgressEvent` built by the hook returned from
`_make_progress_hook` (`youtube_downloader/service.py`, lines 262-290) for a
raw progress dictionary `status`. -/
def make_progress_event (status : Dict) : ProgressEvent :=
  { status := map_raw_status (dget status "status"),
    downloaded_bytes := dget status "downloaded_bytes",
    total_bytes := pyOr (dget status "total_bytes") (dget status "total_bytes_estimate"),
    speed := dget status "speed",
    eta := dget status "eta",
    filename := pyOr (dget status "filename") (dget (info_dict_of status) "filename"),
    raw := status }

/-! ### Laws of the dictionary operations -/

theorem dget_dset_self (d : Dict) (k : String) (v : PyVal) :
    dget (dset d k v) k = some v := by
  induction d with
  | nil => simp [dset, dget]
  | cons hd tl ih =>
    obtain ⟨a, b⟩ := hd
    by_cases h : a = k
    · simp [dset, dget, h]
    · simp [dset, dget, h, ih]

theorem dget_dset_ne (d : Dict) {a k : String} (v : PyVal) (h : a ≠ k) :
    dget (dset d a v) k = dget d k := by
  induction d with
  | nil => simp [dset, dget, h]
  | cons hd tl ih =>
    obtain ⟨x, y⟩ := hd
    by_cases hx : x = a <;> by_cases hk : x = k <;>
      simp_all [dset, dget]

theorem dget_dsetdefault_of_some (d : Dict) {k : String} {w : PyVal} (v : PyVal)
    (h : dget d k = some w) : dget (dsetdefault d k v) k = some w := by
  simp [dsetdefault, h]

theorem dget_dsetdefault_ne (d : Dict) {a k : String} (v : PyVal) (h : a ≠ k) :
    dget (dsetdefault d a v) k = dget d k := by
  unfold dsetdefault
  split
  · rfl
  · exact dget_dset_ne d v h

theorem dget_dlistAppend_ne (d : Dict) {a k : String} (v : PyVal) (h : a ≠ k) :
    dget (dlistAppend d a v) k = dget d k := by
  unfold dlistAppend
  split
  · exact dget_dset_ne d _ h
  · rfl

theorem dget_eq_none_iff (e : Dict) (k : String) :
    dget e k = none ↔ k ∉ e.map Prod.fst := by
  induction e with
  | nil => simp [dget]
  | cons hd tl ih =>
    obtain ⟨a, b⟩ := hd
    by_cases h : a = k
    · subst h; simp [dget]
    · simp [dget, h, ih, Ne.symm h]

theorem dget_dupdate_not_mem (e : Dict) (d : Dict) (k : String)
    (h : k ∉ e.map Prod.fst) : dget (dupdate d e) k = dget d k := by
  induction e generalizing d with
  | nil => rfl
  | cons hd tl ih =>
    obtain ⟨a, b⟩ := hd
    simp only [List.map_cons, List.mem_cons, not_or] at h
    have hstep : dupdate d ((a, b) :: tl) = dupdate (dset d a b) tl := rfl
    rw [hstep, ih (dset d a b) h.2, dget_dset_ne d b (Ne.symm h.1)]

theorem dget_dupdate_of_get (e : Dict) (d : Dict) (k : String) (v : PyVal)
    (hnd : (e.map Prod.fst).Nodup) (h : dget e k = some v) :
    dget (dupdate d e) k = some v := by
  induction e generalizing d with
  | nil => simp [dget] at h
  | cons hd tl ih =>
    obtain ⟨a, b⟩ := hd
    simp only [List.map_cons, List.nodup_cons] at hnd
    have hstep : dupdate d ((a, b) :: tl) = dupdate (dset d a b) tl := rfl
    rw [hstep]
    by_cases hak : a = k
    · subst hak
      have hbv : b = v := by simpa [dget] using h
      subst hbv
      rw [dget_dupdate_not_mem tl (dset d a b) a hnd.1, dget_dset_self]
    · simp only [dget, if_neg hak] at h
      exact ih (dset d a b) hnd.2 h

/-! ### Lookup through the blocks of `_build_yt_dlp_options` -/

theorem dget_applyProxyOpt_ne (dflt p : Option String) (d : Dict) {k : String}
    (h : k ≠ "proxy") : dget (applyProxyOpt dflt p d) k = dget d k := by
  unfold applyProxyOpt
  split
  · split
    · rfl
    · exact dget_dset_ne d _ (Ne.symm h)
  · rfl

theorem dget_applyProxy_ne (svc : Service) (cfg : DownloadConfig) (d : Dict)
    {k : String} (h : k ≠ "proxy") : dget (applyProxy svc cfg d) k = dget d k :=
  dget_applyProxyOpt_ne svc.default_proxy cfg.proxy d h

theorem dget_applyTimeout_ne (cfg : DownloadConfig) (d : Dict) {k : String}
    (h : k ≠ "socket_timeout") : dget (applyTimeout cfg d) k = dget d k := by
  unfold applyTimeout
  split
  · exact dget_dset_ne d _ (Ne.symm h)
  · rfl

theorem dget_applyPlaylist_ne (cfg : DownloadConfig) (d : Dict) {k : String}
    (h : k ≠ "playlist_items") : dget (applyPlaylist cfg d) k = dget d k := by
  unfold applyPlaylist
  split
  · exact dget_dset_ne d _ (Ne.symm h)
  · rfl

theorem dget_applyAudioOnly_ne (cfg : DownloadConfig) (d : Dict) {k : String}
    (h1 : k ≠ "format") (h2 : k ≠ "postprocessors") :
    dget (applyAudioOnly cfg d) k = dget d k := by
  unfold applyAudioOnly
  split
  · rw [dget_dlistAppend_ne _ _ (Ne.symm h2),
      dget_dsetdefault_ne _ _ (Ne.symm h2),
      dget_dsetdefault_ne _ _ (Ne.symm h1)]
  · rfl

theorem dget_applyAudioOnly_format (cfg : DownloadConfig) (d : Dict) {w : PyVal}
    (h : dget d "format" = some w) :
    dget (applyAudioOnly cfg d) "format" = some w := by
  unfold applyAudioOnly
  split
  · rw [dget_dlistAppend_ne _ _ (by decide),
      dget_dsetdefault_ne _ _ (by decide)]
    exact dget_dsetdefault_of_some d _ h
  · exact h

/-- Lookup of a key that only the base literal of `_build_yt_dlp_options`
touches (none of the conditional blocks set it, and the extra options do not
contain it): the result is the base entry. -/
theorem dget_build_of_untouched (svc : Service) (cfg : DownloadConfig)
    (out : String) (hp : Bool) {k : String}
    (hx : dget cfg.extra_yt_dlp_options k = none)
    (h1 : k ≠ "proxy") (h2 : k ≠ "socket_timeout") (h3 : k ≠ "playlist_items")
    (h4 : k ≠ "format") (h5 : k ≠ "postprocessors") :
    dget (build_yt_dlp_options svc cfg out hp) k = dget (base_opts cfg out hp) k := by
  unfold build_yt_dlp_options
  rw [dget_dupdate_not_mem _ _ _ ((dget_eq_none_iff _ _).mp hx),
    dget_applyAudioOnly_ne cfg _ h4 h5,
    dget_applyPlaylist_ne cfg _ h3,
    dget_applyTimeout_ne cfg _ h2,
    dget_applyProxy_ne svc cfg _ h1]

/-! ### Claims about `_build_yt_dlp_options` -/

/-- Claim C1 (code bug): for the config `DownloadConfig(url=..., audio_only=True)`
with the default `format="best"` and empty extra options, the produced option
map's `"format"` is `"best"`, not the claimed `"bestaudio/best"` — the
audio-only branch's `setdefault("format", ...)` can never fire because
`"format"` is always pre-populated from `config.format`.  The other half of
the claim does hold: exactly one `FFmpegExtractAudio` post-processor entry
with codec `mp3` and quality `192` is appended. -/
theorem audio_only_format_setdefault_dead :
    dget (build_yt_dlp_options {}
        { url := "https://example.com/watch", audio_only := true } "downloads" false)
      "format" = some (.str "best")
    ∧ dget (build_yt_dlp_options {}
        { url := "https://example.com/watch", audio_only := true } "downloads" false)
      "postprocessors" = some (.pylist [audio_postprocessor])
    ∧ PyVal.str "best" ≠ PyVal.str "bestaudio/best" := by
  refine ⟨rfl, rfl, ?_⟩
  intro h
  injection h with h1
  exact absurd h1 (by decide)

/-- Claim C9: whenever `extra_yt_dlp_options` does not contain `"format"`,
the option map's `"format"` equals `config.format` — even when
`audio_only` is true — because the key is always pre-populated and the
audio-only branch only applies `setdefault`. -/
theorem format_always_config_format :
    ∀ (svc : Service) (cfg : DownloadConfig) (out : String) (hp : Bool),
      dget cfg.extra_yt_dlp_options "format" = none →
      dget (build_yt_dlp_options svc cfg out hp) "format" = some (.str cfg.format) := by
  intro svc cfg out hp hx
  unfold build_yt_dlp_options
  rw [dget_dupdate_not_mem _ _ _ ((dget_eq_none_iff _ _).mp hx)]
  apply dget_applyAudioOnly_format
  rw [dget_applyPlaylist_ne cfg _ (by decide), dget_applyTimeout_ne cfg _ (by decide),
    dget_applyProxy_ne svc cfg _ (by decide)]
  rfl

/-- Witness for C9 at a concrete audio-only config with everything defaulted. -/
theorem format_always_config_format_witness :
    dget (build_yt_dlp_options {}
        { url := "https://example.com/a", audio_only := true } "downloads" false)
      "format" = some (.str "best") :=
  format_always_config_format {}
    { url := "https://example.com/a", audio_only := true } "downloads" false rfl

/-- Claim C4: the extra options are merged last, so any key they contain —
colliding with a derived key or not — holds the extra option's value in the
final map.  The `Nodup` hypothesis is the Python-dict invariant of distinct
keys carried by the association-list embedding. -/
theorem extra_options_override :
    ∀ (svc : Service) (cfg : DownloadConfig) (out : String) (hp : Bool)
      (k : String) (v : PyVal),
      (cfg.extra_yt_dlp_options.map Prod.fst).Nodup →
      dget cfg.extra_yt_dlp_options k = some v →
      dget (build_yt_dlp_options svc cfg out hp) k = some v := by
  intro svc cfg out hp k v hnd h
  unfold build_yt_dlp_options
  exact dget_dupdate_of_get _ _ _ _ hnd h

/-- Witness for C4: extra `format="worst"` beats the derived `format`. -/
theorem extra_options_override_witness :
    dget (build_yt_dlp_options {}
        { url := "u", extra_yt_dlp_options := [("format", PyVal.str "worst")] }
        "downloads" false)
      "format" = some (.str "worst") :=
  extra_options_override {}
    { url := "u", extra_yt_dlp_options := [("format", PyVal.str "worst")] }
    "downloads" false "format" (PyVal.str "worst") (by simp) rfl

/-- Claim C5: the derived `noplaylist` flag is `playlist_items is None`, and
a present `playlist_items` is passed through verbatim (stated for extra
options not touching these two derived keys, which C4 covers). -/
theorem noplaylist_iff_playlist_items_absent :
    ∀ (svc : Service) (cfg : DownloadConfig) (out : String) (hp : Bool),
      dget cfg.extra_yt_dlp_options "noplaylist" = none →
      dget cfg.extra_yt_dlp_options "playlist_items" = none →
      dget (build_yt_dlp_options svc cfg out hp) "noplaylist"
        = some (.bool cfg.playlist_items.isNone)
      ∧ (∀ s, cfg.playlist_items = some s →
          dget (build_yt_dlp_options svc cfg out hp) "playlist_items"
            = some (.str s)) := by
  intro svc cfg out hp h1 h2
  constructor
  · rw [dget_build_of_untouched svc cfg out hp h1 (by decide) (by decide)
      (by decide) (by decide) (by decide)]
    rfl
  · intro s hs
    unfold build_yt_dlp_options
    rw [dget_dupdate_not_mem _ _ _ ((dget_eq_none_iff _ _).mp h2),
      dget_applyAudioOnly_ne cfg _ (by decide) (by decide)]
    unfold applyPlaylist
    rw [hs]
    exact dget_dset_self _ _ _

/-- Witness for C5 at `playlist_items="1-3"` (so `noplaylist` is false). -/
theorem noplaylist_iff_playlist_items_absent_witness :
    dget (build_yt_dlp_options {} { url := "u", playlist_items := some "1-3" }
        "downloads" false) "noplaylist" = some (.bool false)
    ∧ dget (build_yt_dlp_options {} { url := "u", playlist_items := some "1-3" }
        "downloads" false) "playlist_items" = some (.str "1-3") := by
  have h := noplaylist_iff_playlist_items_absent {}
    { url := "u", playlist_items := some "1-3" } "downloads" false rfl rfl
  exact ⟨h.1, h.2 "1-3" rfl⟩

/-- Claim C8: with no progress callback the `progress_hooks` entry is the
empty list (no hook at all); with a callback, exactly one hook is installed
(stated for extra options not touching `progress_hooks`). -/
theorem progress_hooks_presence :
    ∀ (svc : Service) (cfg : DownloadConfig) (out : String),
      dget cfg.extra_yt_dlp_options "progress_hooks" = none →
      dget (build_yt_dlp_options svc cfg out false) "progress_hooks"
        = some (.pylist [])
      ∧ dget (build_yt_dlp_options svc cfg out true) "progress_hooks"
        = some (.pylist [.hook]) := by
  intro svc cfg out hx
  constructor <;>
    · rw [dget_build_of_untouched svc cfg out _ hx (by decide) (by decide)
        (by decide) (by decide) (by decide)]
      rfl

/-- Witness for C8 at a default config. -/
theorem progress_hooks_presence_witness :
    dget (build_yt_dlp_options {} { url := "u" } "downloads" false)
      "progress_hooks" = some (.pylist [])
    ∧ dget (build_yt_dlp_options {} { url := "u" } "downloads" true)
      "progress_hooks" = some (.pylist [.hook]) :=
  progress_hooks_presence {} { url := "u" } "downloads" rfl

/-! ### Claims about `download` and `get_info` -/

/-- Claim C2: `download` is total (it returns a `DownloadResult` for every
outcome of the wrapped library call), its `success` flag is exactly "the
wrapped call completed without raising", a raised exception with message `m`
yields `errors = [m]` and `filepaths = []`, and a completed call yields
`errors = []`. -/
theorem download_result_contract :
    ∀ (svc : Service) (cfg : DownloadConfig) (hp : Bool)
      (f : Dict → String → Except String Dict),
      (download svc cfg hp f).success = exceptOk (f (download_opts svc cfg hp) cfg.url)
      ∧ (∀ m, f (download_opts svc cfg hp) cfg.url = .error m →
          (download svc cfg hp f).errors = [m]
          ∧ (download svc cfg hp f).filepaths = [])
      ∧ (∀ i, f (download_opts svc cfg hp) cfg.url = .ok i →
          (download svc cfg hp f).errors = []
          ∧ (download svc cfg hp f).info = i) := by
  intro svc cfg hp f
  rcases h : f (download_opts svc cfg hp) cfg.url with m | i
  · refine ⟨?_, ?_, ?_⟩
    · simp [download, h, exceptOk]
    · intro m2 hm2
      injection hm2 with he
      subst he
      simp [download, h]
    · intro i2 hi2
      exact absurd hi2 (by simp)
  · refine ⟨?_, ?_, ?_⟩
    · simp [download, h, exceptOk]
    · intro m2 hm2
      exact absurd hm2 (by simp)
    · intro i2 hi2
      injection hi2 with he
      subst he
      simp [download, h]

/-- Witness for C2: the spec's own example — a wrapped library raising
"network unreachable" gives `success=false`, `errors=["network unreachable"]`,
`filepaths=[]`. -/
theorem download_result_contract_witness :
    (download {} { url := "https://example.com/a" } false
        (fun _ _ => .error "network unreachable")).success = false
    ∧ (download {} { url := "https://example.com/a" } false
        (fun _ _ => .error "network unreachable")).errors = ["network unreachable"]
    ∧ (download {} { url := "https://example.com/a" } false
        (fun _ _ => .error "network unreachable")).filepaths = [] := by
  have h := download_result_contract {} { url := "https://example.com/a" } false
    (fun _ _ => .error "network unreachable")
  exact ⟨h.1, (h.2.1 "network unreachable" rfl).1, (h.2.1 "network unreachable" rfl).2⟩

/-- Claim C6 (counterexample): an entry of `requested_downloads` whose
`"_filename"` is present but the empty string is skipped by the code (the
`if path:` truthiness test), while the claim's "list of each entry's
`_filename` value, skipping entries without one" mandates keeping it. -/
theorem filepaths_empty_filename_counterexample :
    dget [("_filename", PyVal.str "")] "_filename" = some (.str "")
    ∧ (download {} { url := "u" } false (fun _ _ => .ok
        [("requested_downloads", .pylist
          [.pydict [("_filename", .str "")],
           .pydict [("_filename", .str "b.mp4")]])])).filepaths
      = [.str "b.mp4"]
    ∧ [PyVal.str "b.mp4"] ≠ [PyVal.str "", PyVal.str "b.mp4"] := by
  refine ⟨rfl, rfl, ?_⟩
  intro h
  injection h with h1
  injection h1 with h2
  exact absurd h2 (by decide)

/-- Claim C6 (amended): on a completed wrapped call, a singular `"_filename"`
entry wins and yields that single path; otherwise, a `requested_downloads`
list of entries yields, in list order, each entry's `"_filename"` value that
is present and truthy (missing or falsy values — e.g. the empty string — are
skipped). -/
theorem filepaths_extraction_amended :
    ∀ (svc : Service) (cfg : DownloadConfig) (hp : Bool) (info : Dict),
      (∀ v, dget info "_filename" = some v →
        (download svc cfg hp (fun _ _ => .ok info)).filepaths = [v])
      ∧ (∀ ds : List Dict, dget info "_filename" = none →
          dget info "requested_downloads" = some (.pylist (ds.map PyVal.pydict)) →
          (download svc cfg hp (fun _ _ => .ok info)).filepaths
            = ds.filterMap fun d => (dget d "_filename").filter pyTruthy) := by
  intro svc cfg hp info
  constructor
  · intro v hv
    show extract_filepaths info = [v]
    unfold extract_filepaths
    rw [hv]
  · intro ds h1 h2
    show extract_filepaths info = _
    unfold extract_filepaths
    rw [h1, h2]
    show (ds.map PyVal.pydict).filterMap
        (fun item =>
          match item with
          | PyVal.pydict d =>
            match dget d "_filename" with
            | some p => if pyTruthy p then some p else none
            | none => none
          | _ => none)
      = ds.filterMap fun d => (dget d "_filename").filter pyTruthy
    rw [List.filterMap_map]
    apply List.filterMap_congr
    intro d _
    cases hd : dget d "_filename" with
    | none => simp [Function.comp, hd, Option.filter]
    | some p => simp [Function.comp, hd, Option.filter]

/-- Witness for C6 (amended): the spec's example list
`[{"_filename": "a.mp4"}, {"_filename": "b.mp4"}]` yields
`["a.mp4", "b.mp4"]` in order. -/
theorem filepaths_extraction_amended_witness :
    (download {} { url := "u" } false (fun _ _ => .ok
        [("requested_downloads", .pylist
          [.pydict [("_filename", .str "a.mp4")],
           .pydict [("_filename", .str "b.mp4")]])])).filepaths
      = [.str "a.mp4", .str "b.mp4"] := by
  have h := (filepaths_extraction_amended {} { url := "u" } false
    [("requested_downloads", .pylist
      [.pydict [("_filename", .str "a.mp4")],
       .pydict [("_filename", .str "b.mp4")]])]).2
    [[("_filename", .str "a.mp4")], [("_filename", .str "b.mp4")]] rfl rfl
  rw [h]
  rfl

/-- Claim C7: `get_info` returns the wrapped library's raw metadata map on a
completed fetch, and an exception from the wrapped library propagates to the
caller unmodified (no local catch); the option map it uses requests a
metadata-only fetch (`skip_download=True`). -/
theorem get_info_propagates :
    ∀ (svc : Service) (url : String) (proxy : Option String)
      (f : Dict → String → Except String Dict),
      (∀ e, f (get_info_opts svc proxy) url = .error e →
        get_info svc url proxy f = .error e)
      ∧ (∀ i, f (get_info_opts svc proxy) url = .ok i →
          get_info svc url proxy f = .ok i)
      ∧ dget (get_info_opts svc proxy) "skip_download" = some (.bool true) := by
  intro svc url proxy f
  refine ⟨fun e h => h, fun i h => h, ?_⟩
  unfold get_info_opts
  rw [dget_applyProxyOpt_ne _ _ _ (by decide)]
  rfl

/-- Witness for C7: a wrapped library raising "boom" makes `get_info` raise
"boom" to its caller. -/
theorem get_info_propagates_witness :
    get_info {} "https://example.com" none (fun _ _ => .error "boom")
      = .error "boom" :=
  (get_info_propagates {} "https://example.com" none
    (fun _ _ => .error "boom")).1 "boom" rfl

/-! ### Claims about the progress hook -/

/-- Claim C3 (counterexample): for a raw progress dictionary whose
`total_bytes` is present with value `0` (and estimate `100`), the claim's
"total_bytes is the raw total_bytes, falling back only when the exact total
is absent" mandates `0`, but the hook's `or`-based fallback delivers the
estimate `100`. -/
theorem progress_total_bytes_zero_counterexample :
    dget [("status", PyVal.str "downloading"), ("downloaded_bytes", PyVal.int 50),
        ("total_bytes", PyVal.int 0), ("total_bytes_estimate", PyVal.int 100)]
      "total_bytes" = some (.int 0)
    ∧ (make_progress_event
        [("status", .str "downloading"), ("downloaded_bytes", .int 50),
         ("total_bytes", .int 0), ("total_bytes_estimate", .int 100)]).total_bytes
      = some (.int 100)
    ∧ some (PyVal.int 100) ≠ some (PyVal.int 0) := by
  refine ⟨rfl, rfl, ?_⟩
  intro h
  injection h with h1
  injection h1 with h2
  exact absurd h2 (by decide)

/-- Claim C3 (amended): the delivered event's status is `downloading` for raw
status `"downloading"`, `finished` for `"finished"`, and `error` for any
other (or missing) raw status; `downloaded_bytes` is passed through
unmodified; `total_bytes` is the raw `total_bytes` when that value is truthy
and falls back to `total_bytes_estimate` when it is absent or falsy;
`filename` is the raw top-level `filename` when truthy, falling back to the
nested `info_dict` filename when it is absent or falsy; and the full raw
dictionary is preserved in the event's `raw` field. -/
theorem progress_event_mapping_amended :
    ∀ raw : Dict,
      (make_progress_event raw).raw = raw
      ∧ (make_progress_event raw).downloaded_bytes = dget raw "downloaded_bytes"
      ∧ (dget raw "status" = some (.str "downloading") →
          (make_progress_event raw).status = .downloading)
      ∧ (dget raw "status" = some (.str "finished") →
          (make_progress_event raw).status = .finished)
      ∧ (∀ v, dget raw "status" = some v → v ≠ .str "downloading" →
          v ≠ .str "finished" → (make_progress_event raw).status = .error)
      ∧ (dget raw "status" = none → (make_progress_event raw).status = .error)
      ∧ (∀ v, dget raw "total_bytes" = some v → pyTruthy v = true →
          (make_progress_event raw).total_bytes = some v)
      ∧ (∀ v, dget raw "total_bytes" = some v → pyTruthy v = false →
          (make_progress_event raw).total_bytes = dget raw "total_bytes_estimate")
      ∧ (dget raw "total_bytes" = none →
          (make_progress_event raw).total_bytes = dget raw "total_bytes_estimate")
      ∧ (∀ v, dget raw "filename" = some v → pyTruthy v = true →
          (make_progress_event raw).filename = some v)
      ∧ (∀ v, dget raw "filename" = some v → pyTruthy v = false →
          (make_progress_event raw).filename = dget (info_dict_of raw) "filename")
      ∧ (dget raw "filename" = none →
          (make_progress_event raw).filename = dget (info_dict_of raw) "filename") := by
  intro raw
  refine ⟨rfl, rfl, ?_, ?_, ?_, ?_, ?_, ?_, ?_, ?_, ?_, ?_⟩
  · intro h
    show map_raw_status (dget raw "status") = .downloading
    rw [h]
    rfl
  · intro h
    show map_raw_status (dget raw "status") = .finished
    rw [h]
    rfl
  · intro v h hv1 hv2
    show map_raw_status (dget raw "status") = .error
    rw [h]
    cases v with
    | str s =>
      have hs1 : s ≠ "downloading" := fun hc => hv1 (by rw [hc])
      have hs2 : s ≠ "finished" := fun hc => hv2 (by rw [hc])
      show (if s = "downloading" then EventStatus.downloading
        else if s = "finished" then EventStatus.finished else EventStatus.error)
        = EventStatus.error
      rw [if_neg hs1, if_neg hs2]
    | pynone => rfl
    | int n => rfl
    | bool b => rfl
    | pylist xs => rfl
    | pydict xs => rfl
    | logger => rfl
    | hook => rfl
  · intro h
    show map_raw_status (dget raw "status") = .error
    rw [h]
    rfl
  · intro v h hv
    show pyOr (dget raw "total_bytes") (dget raw "total_bytes_estimate") = some v
    rw [h]
    simp [pyOr, hv]
  · intro v h hv
    show pyOr (dget raw "total_bytes") (dget raw "total_bytes_estimate") = _
    rw [h]
    simp [pyOr, hv]
  · intro h
    show pyOr (dget raw "total_bytes") (dget raw "total_bytes_estimate") = _
    rw [h]
    rfl
  · intro v h hv
    show pyOr (dget raw "filename") (dget (info_dict_of raw) "filename") = some v
    rw [h]
    simp [pyOr, hv]
  · intro v h hv
    show pyOr (dget raw "filename") (dget (info_dict_of raw) "filename") = _
    rw [h]
    simp [pyOr, hv]
  · intro h
    show pyOr (dget raw "filename") (dget (info_dict_of raw) "filename") = _
    rw [h]
    rfl

/-- Witness for C3 (amended): the spec's example — raw status "downloading",
`downloaded_bytes=50`, `total_bytes=100` — yields status `downloading` with
both byte counters unmodified. -/
theorem progress_event_mapping_amended_witness :
    (make_progress_event [("status", .str "downloading"),
        ("downloaded_bytes", .int 50), ("total_bytes", .int 100)]).status
      = .downloading
    ∧ (make_progress_event [("status", .str "downloading"),
        ("downloaded_bytes", .int 50), ("total_bytes", .int 100)]).downloaded_bytes
      = some (.int 50)
    ∧ (make_progress_event [("status", .str "downloading"),
        ("downloaded_bytes", .int 50), ("total_bytes", .int 100)]).total_bytes
      = some (.int 100) := by
  have h := progress_event_mapping_amended
    [("status", .str "downloading"), ("downloaded_bytes", .int 50),
     ("total_bytes", .int 100)]
  refine ⟨h.2.2.1 rfl, ?_, h.2.2.2.2.2.2.1 (.int 100) rfl rfl⟩
  rw [h.2.1]
  rfl

/-- Claim C10: the hook's fallbacks are decided by truthiness, not key
presence — a raw `total_bytes` of `0` with a positive estimate delivers the
estimate, and an empty-string top-level `filename` delivers the nested
`info_dict` filename. -/
theorem progress_truthiness_fallback :
    (∀ (raw : Dict) (e : Int), dget raw "total_bytes" = some (.int 0) →
      dget raw "total_bytes_estimate" = some (.int e) → 0 < e →
      (make_progress_event raw).total_bytes = some (.int e))
    ∧ (∀ raw : Dict, dget raw "filename" = some (.str "") →
        (make_progress_event raw).filename = dget (info_dict_of raw) "filename") := by
  constructor
  · intro raw e h1 h2 _
    show pyOr (dget raw "total_bytes") (dget raw "total_bytes_estimate") = some (.int e)
    rw [h1, h2]
    rfl
  · intro raw h
    show pyOr (dget raw "filename") (dget (info_dict_of raw) "filename") = _
    rw [h]
    rfl

/-- Witness for C10 at a concrete raw dictionary with `total_bytes=0`,
estimate `5`, empty top-level filename and nested filename "v.mp4". -/
theorem progress_truthiness_fallback_witness :
    (make_progress_event [("status", .str "downloading"), ("total_bytes", .int 0),
        ("total_bytes_estimate", .int 5), ("filename", .str ""),
        ("info_dict", .pydict [("filename", .str "v.mp4")])]).total_bytes
      = some (.int 5)
    ∧ (make_progress_event [("status", .str "downloading"), ("total_bytes", .int 0),
        ("total_bytes_estimate", .int 5), ("filename", .str ""),
        ("info_dict", .pydict [("filename", .str "v.mp4")])]).filename
      = some (.str "v.mp4") := by
  constructor
  · exact progress_truthiness_fallback.1
      [("status", .str "downloading"), ("total_bytes", .int 0),
       ("total_bytes_estimate", .int 5), ("filename", .str ""),
       ("info_dict", .pydict [("filename", .str "v.mp4")])] 5 rfl rfl (by decide)
  · have h := progress_truthiness_fallback.2
      [("status", .str "downloading"), ("total_bytes", .int 0),
       ("total_bytes_estimate", .int 5), ("filename", .str ""),
       ("info_dict", .pydict [("filename", .str "v.mp4")])] rfl
    rw [h]
    rfl

end YTDL
